import Mathlib

/-!
Shallow embedding of the dTAO-Monitor polling/alerting core
(`src/price_monitor.py`, `src/price_alarm.py`, `src/notification_manager.py`,
`src/alert_manager.py`, `src/config.py`).

Prices, percent changes and timestamps are modelled as rationals; Python float
division is modelled as a fallible operation that raises `ZeroDivisionError` on a
zero divisor.  Side effects (logging, sound playback threads, notification
threads, fetches, sleeps) are modelled as an explicit event trace.  External
fetch outcomes (`bt.Subtensor.subnet`, which the code wraps in try/except and
maps to `None` on failure) are supplied as `Option SubnetInfo` oracle values.
Python attribute lookups that the source performs on attributes the target
object does not define are modelled as raising `AttributeError`.
-/

/-- Python runtime errors raised by the embedded code paths. -/
inductive PyErr
  | attributeError
  | zeroDivisionError
deriving DecidableEq

/-- The fields of a fetched `bt.SubnetInfo` sample that the monitor reads:
the subnet name used for display and the price `info.price.tao`. -/
structure SubnetInfo where
  subnet_name : Option String
  price : ℚ
deriving DecidableEq

/-- `SubnetConfig` from `config.py`: one monitored asset with its per-asset
threshold.  The mutable `_subnet_info` attribute is runtime state and is
modelled in `MonitorState.display_info`, keyed by `netuid`. -/
structure SubnetConfig where
  netuid : Int
  threshold : ℚ
deriving DecidableEq

/-- The `Config` dataclass from `config.py`, with exactly the fields that
dataclass defines (defaults as in the source). -/
structure Config where
  network : String
  interval : Int
  threshold : ℚ
  alert_positive : String
  alert_negative : String
  subnets : List SubnetConfig
  alerts_on : Bool := true
  alert_volume : ℚ := 1/2
  log_threshold_only : Bool := false
  alerts_positive_only : Bool := false
  notifications_on : Bool := true
  notification_sound : Bool := true
  notification_url : Option String := none
  alarm_enabled : Bool := false
  alarm_threshold : ℚ := 10
  alarm_sound : String := "assets/sounds/alarm.mp3"
  alarm_volume : ℚ := 1

/-- `price_alarm.py` reads `config.alarm_negative_only`, but the `Config`
dataclass in `config.py` defines no such field, so the attribute lookup on a
`Config` instance raises `AttributeError`. -/
def Config.alarm_negative_only (_ : Config) : Except PyErr Bool :=
  .error .attributeError

/-- `price_alarm.py` reads `config.alarm_sound_positive`; `Config` defines only
`alarm_sound`, so the lookup raises `AttributeError`. -/
def Config.alarm_sound_positive (_ : Config) : Except PyErr String :=
  .error .attributeError

/-- `price_alarm.py` reads `config.alarm_sound_negative`; `Config` defines only
`alarm_sound`, so the lookup raises `AttributeError`. -/
def Config.alarm_sound_negative (_ : Config) : Except PyErr String :=
  .error .attributeError

/-- `notification_manager.py` (and `logger.py`) read `config.notification_speak`,
a field the `Config` dataclass does not define, so the lookup raises
`AttributeError`. -/
def Config.notification_speak (_ : Config) : Except PyErr Bool :=
  .error .attributeError

/-- Host-platform facts consulted by `NotificationManager`:
whether `platform.system() == 'Darwin'` and whether the `pync` import
succeeded. -/
structure Platform where
  darwin : Bool
  pync : Bool
deriving DecidableEq

/-- `NotificationManager._check_notification_support`: notifications are
supported exactly on macOS with `pync` importable. -/
def NotificationManager.supported (p : Platform) : Bool :=
  p.darwin && p.pync

/-- Observable side effects of the embedded code, in program order. -/
inductive Event
  | fetch (netuid : Int) (ok : Bool)
  | logInfo (important : Bool) (price : ℚ) (change : Option ℚ)
  | logDebug
  | logWarning
  | logError
  | soundDispatch (isPositive : Bool)
  | soundThread (isPositive : Bool)
  | notifDispatch (netuid : Int) (price change threshold : ℚ)
  | notifSend (netuid : Int) (price change threshold : ℚ)
  | speak
  | alarmLog (negative : Bool) (change : ℚ)
  | alarmSound (negative : Bool)
  | sleep (d : ℚ)
deriving DecidableEq

/-- Recognizer for fetch events, used to count price-source calls in a trace. -/
def Event.isFetch : Event → Bool
  | .fetch _ _ => true
  | _ => false

/-- Python float division: raises `ZeroDivisionError` on a zero divisor. -/
def pydiv (a b : ℚ) : Except PyErr ℚ :=
  if b = 0 then .error .zeroDivisionError else .ok (a / b)

/-- `AlertManager.play_alert`: skip negative alerts when
`alerts_positive_only`, skip everything when `alerts_on` is false, otherwise
start the background sound thread. -/
def AlertManager.play_alert (cfg : Config) (is_positive : Bool) : List Event :=
  if !is_positive && cfg.alerts_positive_only then []
  else if !cfg.alerts_on then []
  else [Event.soundThread is_positive]

/-- `NotificationManager.send_notification`: return if unsupported; drop the
notification when `change <= 0` and `alerts_positive_only`; otherwise start the
background notification thread, then (on Darwin) read
`config.notification_speak` — a field `Config` does not define, so that read
raises `AttributeError` after the thread was started. -/
def NotificationManager.send_notification (p : Platform) (cfg : Config)
    (netuid : Int) (price change threshold : ℚ) : List Event × Except PyErr Unit :=
  if !NotificationManager.supported p then ([Event.logDebug], .ok ())
  else if !decide (0 < change) && cfg.alerts_positive_only then
    ([Event.logDebug], .ok ())
  else
    let evs := [Event.notifSend netuid price change threshold]
    if p.darwin then
      match cfg.notification_speak with
      | .error e => (evs, .error e)
      | .ok speak => (evs ++ (if speak then [Event.speak] else []), .ok ())
    else (evs, .ok ())

/-- The method names `class PriceAlarm` in `price_alarm.py` defines. -/
def PriceAlarm.methods : List String :=
  ["_initialize_prices", "_fetch_subnet_info", "check_price_change",
   "_trigger_alarm", "monitor_subnet"]

/-- Python attribute lookup for a method on a `PriceAlarm` instance:
`AttributeError` when the class defines no such method. -/
def PriceAlarm.getMethod (name : String) : Except PyErr String :=
  if name ∈ PriceAlarm.methods then .ok name else .error .attributeError

/-- The mutable runtime state of `PriceMonitor`: `self.last_prices`,
`self.last_check_time` (timestamps as rationals), `self.subnet_info_cache`,
and the per-subnet `SubnetConfig._subnet_info` display attribute. -/
structure MonitorState where
  last_prices : Int → Option ℚ
  last_check_time : Int → Option ℚ
  subnet_info_cache : Int → Option SubnetInfo
  display_info : Int → Option SubnetInfo

/-- `PriceMonitor.calculate_price_change`: `None` when no previous price is
stored; otherwise `((current - last) / last) * 100`, where the Python float
division raises `ZeroDivisionError` if the stored previous price is `0`. -/
def PriceMonitor.calculate_price_change (s : MonitorState) (netuid : Int)
    (current_price : ℚ) : Except PyErr (Option ℚ) :=
  match s.last_prices netuid with
  | none => .ok none
  | some last_price =>
    match pydiv (current_price - last_price) last_price with
    | .error e => .error e
    | .ok q => .ok (some (q * 100))

/-- The threshold-crossed branch of `PriceMonitor.monitor_subnet`
(lines 113–129): important log, `play_alert(price_change > 0)`, then, when
notifications are on, a debug log and the `send_notification` call with the
current price, the change and the subnet threshold. -/
def PriceMonitor.alertEvents (p : Platform) (cfg : Config) (subnet : SubnetConfig)
    (current_price change : ℚ) : List Event × Except PyErr Unit :=
  let evA := Event.logInfo true current_price (some change) ::
             Event.soundDispatch (decide (0 < change)) ::
             AlertManager.play_alert cfg (decide (0 < change))
  if cfg.notifications_on then
    let nr := NotificationManager.send_notification p cfg subnet.netuid
        current_price change subnet.threshold
    (evA ++ Event.logDebug ::
       Event.notifDispatch subnet.netuid current_price change subnet.threshold :: nr.1,
     nr.2)
  else (evA, .ok ())

/-- The `price_change`-dispatch of `PriceMonitor.monitor_subnet`
(lines 112–138): threshold comparison when a change exists, sub-threshold
logging gated by `log_threshold_only`, initial-price logging otherwise. -/
def PriceMonitor.evalChange (p : Platform) (cfg : Config) (subnet : SubnetConfig)
    (current_price : ℚ) (priceChange : Option ℚ) : List Event × Except PyErr Unit :=
  match priceChange with
  | some change =>
    if |change| ≥ subnet.threshold then
      PriceMonitor.alertEvents p cfg subnet current_price change
    else if !cfg.log_threshold_only then
      ([Event.logInfo false current_price (some change)], .ok ())
    else ([], .ok ())
  | none => ([Event.logInfo false current_price none], .ok ())

/-- Result of one per-asset task: the monitor state it leaves behind, the
events it emitted, and whether it completed or raised (a raised exception is
stored in the task's future and never re-raised by the cycle). -/
structure SubnetStep where
  state : MonitorState
  events : List Event
  result : Except PyErr Unit

/-- `PriceMonitor.monitor_subnet`: fetch (early return on failure), cache the
sample, refresh the display info, compute the cycle change, run the
alert/log dispatch, update `last_prices` and `last_check_time`, then call
`self.price_alarm.monitor_subnet_with_cache(subnet, subnet_info)` — a method
`PriceAlarm` does not define, so that final call raises `AttributeError`.
`fetchRes` is the oracle outcome of this task's fetch; `now` the value of
`datetime.now()`. -/
def PriceMonitor.monitor_subnet (p : Platform) (cfg : Config)
    (fetchRes : Option SubnetInfo) (now : ℚ) (subnet : SubnetConfig)
    (s : MonitorState) : SubnetStep :=
  match fetchRes with
  | none => { state := s, events := [Event.fetch subnet.netuid false], result := .ok () }
  | some info =>
    let s1 : MonitorState :=
      { s with
        subnet_info_cache := fun u =>
          if u = subnet.netuid then some info else s.subnet_info_cache u,
        display_info := fun u =>
          if u = subnet.netuid then some info else s.display_info u }
    match PriceMonitor.calculate_price_change s1 subnet.netuid info.price with
    | .error e =>
      { state := s1, events := [Event.fetch subnet.netuid true], result := .error e }
    | .ok priceChange =>
      let br := PriceMonitor.evalChange p cfg subnet info.price priceChange
      match br.2 with
      | .error e =>
        { state := s1, events := Event.fetch subnet.netuid true :: br.1,
          result := .error e }
      | .ok _ =>
        let s2 : MonitorState :=
          { s1 with
            last_prices := fun u =>
              if u = subnet.netuid then some info.price else s1.last_prices u,
            last_check_time := fun u =>
              if u = subnet.netuid then some now else s1.last_check_time u }
        { state := s2, events := Event.fetch subnet.netuid true :: br.1,
          result :=
            match PriceAlarm.getMethod "monitor_subnet_with_cache" with
            | .error e => .error e
            | .ok _ => .ok () }

/-- The per-cycle task pool of `PriceMonitor.monitor_all_subnets`, linearized:
one `monitor_subnet` task per configured subnet, with `oracle` giving each
subnet's fetch outcome for this cycle.  Each task's stored exception is never
re-raised (the cycle only waits on the futures). -/
def PriceMonitor.runTasks (p : Platform) (cfg : Config)
    (oracle : Int → Option SubnetInfo) (now : ℚ) :
    List SubnetConfig → MonitorState → MonitorState × List Event
  | [], s => (s, [])
  | subnet :: rest, s =>
    let st := PriceMonitor.monitor_subnet p cfg (oracle subnet.netuid) now subnet s
    let r := PriceMonitor.runTasks p cfg oracle now rest st.state
    (r.1, st.events ++ r.2)

/-- `PriceMonitor.monitor_all_subnets`: clear the subnet-info cache, then run
the per-asset tasks and wait for all of them to complete. -/
def PriceMonitor.monitor_all_subnets (p : Platform) (cfg : Config)
    (oracle : Int → Option SubnetInfo) (now : ℚ) (s : MonitorState) :
    MonitorState × List Event :=
  PriceMonitor.runTasks p cfg oracle now cfg.subnets
    { s with subnet_info_cache := fun _ => none }

/-- The sleep computation of `PriceMonitor.monitor_loop`:
`elapsed = time.time() - start_time; sleep_time = max(0, interval - elapsed)`. -/
def PriceMonitor.sleep_time (interval : Int) (elapsed : ℚ) : ℚ :=
  max 0 ((interval : ℚ) - elapsed)

/-- One iteration of `PriceMonitor.monitor_loop`: run the full cycle (waiting
on every per-asset task), then sleep for `max(0, interval - elapsed)`. -/
def PriceMonitor.monitor_loop_step (p : Platform) (cfg : Config)
    (oracle : Int → Option SubnetInfo) (now elapsed : ℚ) (s : MonitorState) :
    MonitorState × List Event :=
  let r := PriceMonitor.monitor_all_subnets p cfg oracle now s
  (r.1, r.2 ++ [Event.sleep (PriceMonitor.sleep_time cfg.interval elapsed)])

/-- Lock objects created by the two classes: `PriceMonitor.__init__` and
`PriceAlarm.__init__` each construct their own `threading.Lock()`. -/
inductive LockId
  | monitorLock
  | alarmLock
deriving DecidableEq

/-- The lock `PriceMonitor.fetch_subnet_info` acquires around its
`subtensor.subnet` call: the one created in `PriceMonitor.__init__`. -/
def PriceMonitor.fetchLock : LockId := LockId.monitorLock

/-- The lock `PriceAlarm._fetch_subnet_info` acquires around its
`subtensor.subnet` call: the one created in `PriceAlarm.__init__`. -/
def PriceAlarm.fetchLock : LockId := LockId.alarmLock

/-- Program counter of one guarded fetch: not yet started, fetch in flight
with the guarding lock held, or finished with the lock released. -/
inductive FetchPc
  | idle
  | inFlight
  | done
deriving DecidableEq

/-- Joint state of two concurrently running guarded fetches. -/
structure TwoFetchState where
  pc1 : FetchPc
  pc2 : FetchPc
deriving DecidableEq

/-- Whether lock `l` is currently held, given that thread 1 guards its fetch
with `l1` and thread 2 with `l2`: a lock is held exactly while the fetch it
guards is in flight. -/
def lockHeld (l1 l2 : LockId) (st : TwoFetchState) (l : LockId) : Bool :=
  (l1 == l && st.pc1 == FetchPc.inFlight) || (l2 == l && st.pc2 == FetchPc.inFlight)

/-- Interleaving steps of two guarded fetches: a thread may begin its fetch
only by acquiring its own lock (possible only while that lock is free), and
releases the lock when the fetch call returns. -/
inductive FetchStep (l1 l2 : LockId) : TwoFetchState → TwoFetchState → Prop
  | acquire1 (p2 : FetchPc) :
      lockHeld l1 l2 ⟨FetchPc.idle, p2⟩ l1 = false →
      FetchStep l1 l2 ⟨FetchPc.idle, p2⟩ ⟨FetchPc.inFlight, p2⟩
  | release1 (p2 : FetchPc) :
      FetchStep l1 l2 ⟨FetchPc.inFlight, p2⟩ ⟨FetchPc.done, p2⟩
  | acquire2 (p1 : FetchPc) :
      lockHeld l1 l2 ⟨p1, FetchPc.idle⟩ l2 = false →
      FetchStep l1 l2 ⟨p1, FetchPc.idle⟩ ⟨p1, FetchPc.inFlight⟩
  | release2 (p1 : FetchPc) :
      FetchStep l1 l2 ⟨p1, FetchPc.inFlight⟩ ⟨p1, FetchPc.done⟩

/-- Reachable states of the two-fetch interleaving, both threads starting
before their fetch. -/
inductive FetchReach (l1 l2 : LockId) : TwoFetchState → Prop
  | init : FetchReach l1 l2 ⟨FetchPc.idle, FetchPc.idle⟩
  | step {s t : TwoFetchState} :
      FetchReach l1 l2 s → FetchStep l1 l2 s t → FetchReach l1 l2 t

/-- Python `dict.get`: `None` both when the key is absent and when the stored
value is `None` (as in `self.initial_prices.get(subnet.netuid)`). -/
def dictGet (m : Int → Option (Option ℚ)) (u : Int) : Option ℚ :=
  match m u with
  | none => none
  | some v => v

/-- The loop body of `PriceAlarm._initialize_prices`: for each configured
subnet, fetch once; record the price on success, record `None` on failure.
`oracle` gives the outcome of the one initializing fetch per netuid. -/
def PriceAlarm.initLoop (oracle : Int → Option SubnetInfo) :
    List SubnetConfig → (Int → Option (Option ℚ)) → Int → Option (Option ℚ)
  | [], m => m
  | subnet :: rest, m =>
    PriceAlarm.initLoop oracle rest (fun u =>
      if u = subnet.netuid then some ((oracle subnet.netuid).map SubnetInfo.price)
      else m u)

/-- `PriceAlarm._initialize_prices` (named `init_prices` here): a no-op when
the alarm is disabled; otherwise one initializing fetch per subnet, recording
the price or `None`.  Runs once, from `PriceAlarm.__init__`. -/
def PriceAlarm.init_prices (cfg : Config) (oracle : Int → Option SubnetInfo) :
    Int → Option (Option ℚ) :=
  if cfg.alarm_enabled then PriceAlarm.initLoop oracle cfg.subnets (fun _ => none)
  else fun _ => none

/-- `PriceAlarm._trigger_alarm`: when notifications are on, fetch again and
pass `self._fetch_subnet_info(netuid).price.tao` to `send_notification` — the
fetch result is dereferenced with no `None` check, so a failed fetch raises
`AttributeError` before any sound is played.  The sound step then reads
`config.alarm_sound_negative` / `alarm_sound_positive` inside a try/except;
`Config` defines neither field, so `AttributeError` is raised there, caught,
and logged — the branch that would run `afplay` is unreachable.
`fetchRes` is the oracle outcome of the trigger's own fetch. -/
def PriceAlarm.trigger_alarm (p : Platform) (cfg : Config)
    (fetchRes : Option SubnetInfo) (subnet : SubnetConfig)
    (price_change : ℚ) (is_negative : Bool) : List Event × Except PyErr Unit :=
  let notifPart : List Event × Except PyErr Unit :=
    if cfg.notifications_on then
      match fetchRes with
      | none => ([Event.fetch subnet.netuid false], .error .attributeError)
      | some info =>
        let nr := NotificationManager.send_notification p cfg subnet.netuid
            info.price price_change cfg.alarm_threshold
        (Event.fetch subnet.netuid true ::
           Event.notifDispatch subnet.netuid info.price price_change cfg.alarm_threshold ::
           nr.1, nr.2)
    else ([], .ok ())
  match notifPart.2 with
  | .error e => (notifPart.1, .error e)
  | .ok _ =>
    let soundPart : List Event :=
      match (if is_negative then cfg.alarm_sound_negative
             else cfg.alarm_sound_positive) with
      | .error _ => [Event.logError]
      | .ok _ => [Event.alarmSound is_negative]
    (notifPart.1 ++ soundPart, .ok ())

/-- `PriceAlarm.check_price_change`: no-op when the alarm is disabled or the
baseline is unset; otherwise fetch (its own fetch, with early return on
failure), compute the change against the baseline, trigger a negative alarm
when `change <= -alarm_threshold`, and otherwise evaluate
`not config.alarm_negative_only and change >= alarm_threshold` — whose first
conjunct reads a field `Config` does not define, raising `AttributeError`.
Returns the (unmodified) `initial_prices` map, the events and the outcome.
`fetch1` is this call's own fetch outcome; `fetch2` the trigger's. -/
def PriceAlarm.check_price_change (p : Platform) (cfg : Config)
    (m : Int → Option (Option ℚ)) (fetch1 fetch2 : Option SubnetInfo)
    (subnet : SubnetConfig) :
    (Int → Option (Option ℚ)) × List Event × Except PyErr Unit :=
  if !cfg.alarm_enabled then (m, [], .ok ())
  else
    match dictGet m subnet.netuid with
    | none => (m, [], .ok ())
    | some initial_price =>
      match fetch1 with
      | none => (m, [Event.fetch subnet.netuid false], .ok ())
      | some info =>
        match pydiv (info.price - initial_price) initial_price with
        | .error e => (m, [Event.fetch subnet.netuid true], .error e)
        | .ok q =>
          let price_change := q * 100
          if price_change ≤ -cfg.alarm_threshold then
            let tr := PriceAlarm.trigger_alarm p cfg fetch2 subnet price_change true
            (m, Event.fetch subnet.netuid true ::
                  Event.alarmLog true price_change :: Event.logWarning :: tr.1, tr.2)
          else
            match cfg.alarm_negative_only with
            | .error e => (m, [Event.fetch subnet.netuid true], .error e)
            | .ok neg_only =>
              if !neg_only && price_change ≥ cfg.alarm_threshold then
                let tr := PriceAlarm.trigger_alarm p cfg fetch2 subnet price_change false
                (m, Event.fetch subnet.netuid true ::
                      Event.alarmLog false price_change :: Event.logWarning :: tr.1, tr.2)
              else (m, [Event.fetch subnet.netuid true], .ok ())

/-- A post-initialization operation on a `PriceAlarm` instance:
`monitor_subnet` just delegates to `check_price_change`, so one constructor
covers both entry points. -/
inductive AlarmOp
  | check (p : Platform) (fetch1 fetch2 : Option SubnetInfo) (subnet : SubnetConfig)

/-- Run a sequence of post-initialization `PriceAlarm` operations, threading
the `initial_prices` map each call leaves behind. -/
def PriceAlarm.runOps (cfg : Config) :
    (Int → Option (Option ℚ)) → List AlarmOp → Int → Option (Option ℚ)
  | m, [] => m
  | m, AlarmOp.check p f1 f2 subnet :: rest =>
    PriceAlarm.runOps cfg (PriceAlarm.check_price_change p cfg m f1 f2 subnet).1 rest

/-- A base configuration matching the required fields of `Config.from_yaml`,
with one monitored subnet (netuid 1, threshold 3%) and the dataclass
defaults for everything else. -/
def cfgBase : Config :=
  { network := "finney", interval := 60, threshold := 3,
    alert_positive := "assets/sounds/up.mp3",
    alert_negative := "assets/sounds/down.mp3",
    subnets := [⟨1, 3⟩] }

/-- `cfgBase` with the baseline alarm enabled and notifications off. -/
def cfgAlarm : Config :=
  { cfgBase with alarm_enabled := true, notifications_on := false }

/-- `cfgBase` with the baseline alarm enabled and `alerts_positive_only`. -/
def cfgPosOnly : Config :=
  { cfgBase with alarm_enabled := true, alerts_positive_only := true }

/-- A macOS host with `pync` importable (notifications supported). -/
def pMac : Platform := ⟨true, true⟩

/-- A non-macOS host without `pync` (notifications unsupported). -/
def pNone : Platform := ⟨false, false⟩

/-- Monitor state right after startup: no prices, no check times, empty caches. -/
def initialState : MonitorState :=
  ⟨fun _ => none, fun _ => none, fun _ => none, fun _ => none⟩

/-- Monitor state whose stored previous price for netuid 1 is τ10. -/
def sTen : MonitorState :=
  { initialState with last_prices := fun u => if u = 1 then some 10 else none }

/-- Monitor state whose stored previous price is τ0 everywhere. -/
def sZero : MonitorState :=
  { initialState with last_prices := fun _ => some 0 }

/-- A fetched sample with price τ10.5. -/
def info105 : SubnetInfo := ⟨none, 21/2⟩

/-- A fetched sample with price τ1.2. -/
def info12 : SubnetInfo := ⟨none, 6/5⟩

/-- A fetched sample with price τ0.85. -/
def info085 : SubnetInfo := ⟨none, 17/20⟩

/-- A fetched sample with price τ1. -/
def info1 : SubnetInfo := ⟨none, 1⟩

/-- The monitored subnet netuid 1 with threshold 3%. -/
def sn1 : SubnetConfig := ⟨1, 3⟩

/-- A baseline map with baseline τ1 recorded for netuid 1. -/
def mBase : Int → Option (Option ℚ) := fun u => if u = 1 then some (some 1) else none

/-- A fetch oracle on which every fetch fails. -/
def oracleFail : Int → Option SubnetInfo := fun _ => none

/-- A fetch oracle on which every fetch returns the τ1 sample. -/
def oracleOne : Int → Option SubnetInfo := fun _ => some info1

/-- C4 counterexample: with a stored prior price of `0` and current price τ5,
`calculate_price_change` raises `ZeroDivisionError`; it does not return
absence as the claim states. -/
theorem c4_zero_prior_counterexample :
    PriceMonitor.calculate_price_change sZero 1 5 = .error .zeroDivisionError ∧
    PriceMonitor.calculate_price_change sZero 1 5 ≠ .ok none := by
  have h : PriceMonitor.calculate_price_change sZero 1 5 = .error .zeroDivisionError := by
    simp [PriceMonitor.calculate_price_change, sZero, initialState, pydiv]
  exact ⟨h, by rw [h]; simp⟩

/-- C4 (amended): the cycle percent-change computation returns
`(new - old) / old * 100` whenever a prior price `old` exists and is nonzero,
returns absence when no prior value exists, and raises `ZeroDivisionError`
(rather than returning absence) when the stored prior price equals `0`. -/
theorem c4_percent_change (s : MonitorState) (netuid : Int) (cp : ℚ) :
    (s.last_prices netuid = none →
      PriceMonitor.calculate_price_change s netuid cp = .ok none) ∧
    (∀ lp : ℚ, s.last_prices netuid = some lp → lp ≠ 0 →
      PriceMonitor.calculate_price_change s netuid cp
        = .ok (some ((cp - lp) / lp * 100))) ∧
    (s.last_prices netuid = some 0 →
      PriceMonitor.calculate_price_change s netuid cp = .error .zeroDivisionError) := by
  refine ⟨fun h => ?_, fun lp h h0 => ?_, fun h => ?_⟩
  · simp [PriceMonitor.calculate_price_change, h]
  · simp [PriceMonitor.calculate_price_change, h, pydiv, h0]
  · simp [PriceMonitor.calculate_price_change, h, pydiv]

/-- C4 witness: prior τ10, current τ10.5 yields the exact formula value. -/
theorem c4_percent_change_witness :
    PriceMonitor.calculate_price_change sTen 1 (21/2)
      = .ok (some ((21/2 - 10) / 10 * 100)) :=
  (c4_percent_change sTen 1 (21/2)).2.1 10 rfl (by norm_num)

/-- C10: with notifications globally enabled, `_trigger_alarm` performs its own
extra fetch and dereferences the result with no `None` check; when that fetch
fails, the trigger raises `AttributeError` after only the failed fetch — in
particular no alarm sound (nor anything else) is dispatched. -/
theorem c10_trigger_fetch_failure (p : Platform) (cfg : Config)
    (subnet : SubnetConfig) (price_change : ℚ) (is_negative : Bool)
    (h : cfg.notifications_on = true) :
    PriceAlarm.trigger_alarm p cfg none subnet price_change is_negative
      = ([Event.fetch subnet.netuid false], .error .attributeError) := by
  simp [PriceAlarm.trigger_alarm, h]

/-- C10 witness: concrete negative trigger with a failing extra fetch. -/
theorem c10_trigger_fetch_failure_witness :
    PriceAlarm.trigger_alarm pMac cfgPosOnly none sn1 (-15) true
      = ([Event.fetch 1 false], .error .attributeError) :=
  c10_trigger_fetch_failure pMac cfgPosOnly sn1 (-15) true rfl

/-- C2 counterexample: the two fetch paths do not share one process-wide lock —
`PriceMonitor.__init__` and `PriceAlarm.__init__` each create their own
`threading.Lock()` — and with the two distinct locks the interleaving in which
a `PriceMonitor` fetch and a `PriceAlarm` fetch are simultaneously in flight
is reachable. -/
theorem c2_two_locks_counterexample :
    PriceMonitor.fetchLock ≠ PriceAlarm.fetchLock ∧
    FetchReach PriceMonitor.fetchLock PriceAlarm.fetchLock
      ⟨FetchPc.inFlight, FetchPc.inFlight⟩ := by
  refine ⟨by decide, ?_⟩
  have h1 : FetchReach PriceMonitor.fetchLock PriceAlarm.fetchLock
      ⟨FetchPc.inFlight, FetchPc.idle⟩ :=
    FetchReach.step FetchReach.init (FetchStep.acquire1 _ (by decide))
  exact FetchReach.step h1 (FetchStep.acquire2 _ (by decide))

/-- C2 (amended): each component guards its fetches with its own per-instance
lock, held only for the duration of the fetch call; two fetches guarded by the
same lock are never in flight simultaneously (so fetches within each component
are serialized), but a `PriceMonitor` fetch and a `PriceAlarm` fetch use
distinct locks and may overlap. -/
theorem c2_same_lock_mutual_exclusion (l : LockId) (st : TwoFetchState)
    (h : FetchReach l l st) :
    ¬(st.pc1 = FetchPc.inFlight ∧ st.pc2 = FetchPc.inFlight) := by
  induction h with
  | init => simp
  | step hr hs ih =>
    cases hs with
    | acquire1 p2 hfree =>
      rintro ⟨-, h2⟩
      simp only at h2
      rw [h2] at hfree
      simp [lockHeld] at hfree
    | release1 p2 => rintro ⟨h1, -⟩; simp at h1
    | acquire2 p1 hfree =>
      rintro ⟨h1, -⟩
      simp only at h1
      rw [h1] at hfree
      simp [lockHeld] at hfree
    | release2 p1 => rintro ⟨-, h2⟩; simp at h2

/-- C2 witness: a concrete reachable state under one shared lock with exactly
one fetch in flight satisfies mutual exclusion. -/
theorem c2_same_lock_mutual_exclusion_witness :
    ¬((⟨FetchPc.inFlight, FetchPc.idle⟩ : TwoFetchState).pc1 = FetchPc.inFlight ∧
      (⟨FetchPc.inFlight, FetchPc.idle⟩ : TwoFetchState).pc2 = FetchPc.inFlight) :=
  c2_same_lock_mutual_exclusion LockId.monitorLock ⟨FetchPc.inFlight, FetchPc.idle⟩
    (FetchReach.step FetchReach.init (FetchStep.acquire1 _ (by decide)))

/-- `check_price_change` never writes to `self.initial_prices`: every return
path leaves the baseline map exactly as it was. -/
theorem PriceAlarm.check_preserves_baselines (p : Platform) (cfg : Config)
    (m : Int → Option (Option ℚ)) (f1 f2 : Option SubnetInfo)
    (subnet : SubnetConfig) :
    (PriceAlarm.check_price_change p cfg m f1 f2 subnet).1 = m := by
  unfold PriceAlarm.check_price_change
  dsimp only
  repeat' split
  all_goals rfl

/-- Any sequence of post-initialization `PriceAlarm` operations leaves the
baseline map unchanged. -/
theorem PriceAlarm.runOps_preserves_baselines (cfg : Config)
    (m : Int → Option (Option ℚ)) :
    ∀ ops : List AlarmOp, PriceAlarm.runOps cfg m ops = m
  | [] => rfl
  | AlarmOp.check p f1 f2 subnet :: rest => by
    rw [PriceAlarm.runOps, PriceAlarm.check_preserves_baselines]
    exact PriceAlarm.runOps_preserves_baselines cfg m rest

/-- If the initializing fetch for netuid `u` fails, the init loop leaves `u`
recorded as unset (Python `None`, which `dict.get` conflates with absence). -/
theorem PriceAlarm.initLoop_unset (oracle : Int → Option SubnetInfo) (u : Int)
    (hf : oracle u = none) :
    ∀ (l : List SubnetConfig) (m : Int → Option (Option ℚ)),
      dictGet m u = none → dictGet (PriceAlarm.initLoop oracle l m) u = none
  | [], _, hm => hm
  | subnet :: rest, m, hm => by
    rw [PriceAlarm.initLoop]
    refine PriceAlarm.initLoop_unset oracle u hf rest _ ?_
    by_cases hu : u = subnet.netuid
    · subst hu; simp [dictGet, hf]
    · simpa [dictGet, hu] using hm

/-- C7: the baseline map produced at startup by `_initialize_prices` is never
mutated by any later sequence of `PriceAlarm` operations; when the
initializing fetch for an asset failed, its baseline reads as unset, and every
subsequent `check_price_change` on that asset is a no-op — no fetch, no event,
no error, no state change (hence no retry). -/
theorem c7_baseline_immutable (cfg : Config) (oracle : Int → Option SubnetInfo)
    (ops : List AlarmOp) (u : Int) (hf : oracle u = none) :
    PriceAlarm.runOps cfg (PriceAlarm.init_prices cfg oracle) ops
      = PriceAlarm.init_prices cfg oracle ∧
    dictGet (PriceAlarm.init_prices cfg oracle) u = none ∧
    (∀ (p : Platform) (f1 f2 : Option SubnetInfo) (subnet : SubnetConfig),
      subnet.netuid = u →
      PriceAlarm.check_price_change p cfg (PriceAlarm.init_prices cfg oracle) f1 f2 subnet
        = (PriceAlarm.init_prices cfg oracle, [], .ok ())) := by
  have hunset : dictGet (PriceAlarm.init_prices cfg oracle) u = none := by
    unfold PriceAlarm.init_prices
    split
    · exact PriceAlarm.initLoop_unset oracle u hf cfg.subnets _ (by simp [dictGet])
    · simp [dictGet]
  refine ⟨PriceAlarm.runOps_preserves_baselines cfg _ ops, hunset,
    fun p f1 f2 subnet hn => ?_⟩
  unfold PriceAlarm.check_price_change
  rw [hn, hunset]
  cases cfg.alarm_enabled <;> simp

/-- C7 witness: concrete config with the alarm enabled and a failing
initializing fetch for netuid 1. -/
theorem c7_baseline_immutable_witness :
    dictGet (PriceAlarm.init_prices cfgAlarm oracleFail) 1 = none ∧
    PriceAlarm.check_price_change pMac cfgAlarm
        (PriceAlarm.init_prices cfgAlarm oracleFail) none none sn1
      = (PriceAlarm.init_prices cfgAlarm oracleFail, [], .ok ()) :=
  ⟨(c7_baseline_immutable cfgAlarm oracleFail [] 1 rfl).2.1,
   (c7_baseline_immutable cfgAlarm oracleFail [] 1 rfl).2.2 pMac none none sn1 rfl⟩

/-- Every per-asset task emits the fetch event for its subnet, whether the
fetch succeeded or failed. -/
theorem PriceMonitor.monitor_subnet_fetch_mem (p : Platform) (cfg : Config)
    (fetchRes : Option SubnetInfo) (now : ℚ) (subnet : SubnetConfig)
    (s : MonitorState) :
    Event.fetch subnet.netuid fetchRes.isSome
      ∈ (PriceMonitor.monitor_subnet p cfg fetchRes now subnet s).events := by
  cases fetchRes with
  | none => simp [PriceMonitor.monitor_subnet]
  | some info =>
    unfold PriceMonitor.monitor_subnet
    dsimp only
    repeat' split
    all_goals simp

/-- In a cycle, every configured subnet's task runs: its fetch event appears in
the cycle's trace. -/
theorem PriceMonitor.runTasks_fetch_mem (p : Platform) (cfg : Config)
    (oracle : Int → Option SubnetInfo) (now : ℚ) (subnet : SubnetConfig) :
    ∀ (l : List SubnetConfig) (s : MonitorState), subnet ∈ l →
      Event.fetch subnet.netuid (oracle subnet.netuid).isSome
        ∈ (PriceMonitor.runTasks p cfg oracle now l s).2
  | [], _, h => absurd h (List.not_mem_nil subnet)
  | sn :: rest, s, h => by
    rw [PriceMonitor.runTasks]
    rcases List.mem_cons.mp h with h1 | h2
    · subst h1
      exact List.mem_append_left _
        (PriceMonitor.monitor_subnet_fetch_mem p cfg _ now subnet s)
    · exact List.mem_append_right _
        (PriceMonitor.runTasks_fetch_mem p cfg oracle now subnet rest _ h2)

/-- C8: one scheduler iteration runs the full cycle — every configured
subnet's task, whose fetch event appears in the cycle trace — and only then
sleeps; the sleep duration equals `max 0 (interval - elapsed)` and is never
negative. -/
theorem c8_scheduler_barrier_and_sleep (p : Platform) (cfg : Config)
    (oracle : Int → Option SubnetInfo) (now elapsed : ℚ) (s : MonitorState) :
    (PriceMonitor.monitor_loop_step p cfg oracle now elapsed s).2
      = (PriceMonitor.monitor_all_subnets p cfg oracle now s).2
        ++ [Event.sleep (PriceMonitor.sleep_time cfg.interval elapsed)] ∧
    0 ≤ PriceMonitor.sleep_time cfg.interval elapsed ∧
    PriceMonitor.sleep_time cfg.interval elapsed
      = max 0 ((cfg.interval : ℚ) - elapsed) ∧
    (∀ subnet ∈ cfg.subnets,
      Event.fetch subnet.netuid (oracle subnet.netuid).isSome
        ∈ (PriceMonitor.monitor_all_subnets p cfg oracle now s).2) := by
  refine ⟨rfl, le_max_left 0 _, rfl, fun subnet hmem => ?_⟩
  exact PriceMonitor.runTasks_fetch_mem p cfg oracle now subnet cfg.subnets _ hmem

/-- C8 witness: subnet 1 of the concrete configuration is fetched within the
cycle part of the trace. -/
theorem c8_scheduler_barrier_and_sleep_witness :
    Event.fetch 1 true
      ∈ (PriceMonitor.monitor_all_subnets pMac cfgBase oracleOne 0 initialState).2 :=
  (c8_scheduler_barrier_and_sleep pMac cfgBase oracleOne 0 5 initialState).2.2.2 sn1
    (by simp [cfgBase, sn1])

/-- C1: `PriceAlarm` defines no method `monitor_subnet_with_cache`, so the
baseline-check call at the end of `monitor_subnet` raises `AttributeError` on
every successful fetch and no baseline check runs in the cycle; the per-asset
task performs exactly one fetch, and the only baseline-check path that does
exist, `check_price_change`, performs its own additional fetch instead of
reusing the cycle's sample. -/
theorem c1_no_cached_baseline_check :
    PriceAlarm.getMethod "monitor_subnet_with_cache" = .error .attributeError ∧
    (PriceMonitor.monitor_subnet pNone cfgAlarm (some info1) 7 sn1 initialState).result
      = .error .attributeError ∧
    (PriceMonitor.monitor_subnet pNone cfgAlarm (some info1) 7 sn1
        initialState).events.countP Event.isFetch = 1 ∧
    Event.fetch 1 true
      ∈ (PriceAlarm.check_price_change pNone cfgAlarm mBase (some info1) none sn1).2.1 := by
  refine ⟨rfl, rfl, rfl, ?_⟩
  have h : (PriceAlarm.check_price_change pNone cfgAlarm mBase (some info1) none sn1)
      = (mBase, [Event.fetch 1 true], .error .attributeError) := by
    norm_num [PriceAlarm.check_price_change, cfgAlarm, cfgBase, mBase, dictGet,
      pydiv, info1, sn1, Config.alarm_negative_only]
  rw [h]
  exact List.mem_singleton_self _

/-- C3: the negative branch behaves as specified — baseline τ1, sample τ0.85
(change −15%), threshold 10% fires the negative alarm without consulting any
negative-only setting — but on any sample with change > −threshold (here τ1.2,
change +20%) the decision code evaluates
`not config.alarm_negative_only and change >= threshold`, reading a field the
`Config` dataclass does not define, and raises `AttributeError` instead of
deciding between a positive alarm and no alarm. -/
theorem c3_alarm_decision_eval :
    Event.alarmLog true (-15)
      ∈ (PriceAlarm.check_price_change pNone cfgAlarm mBase (some info085) none sn1).2.1 ∧
    (PriceAlarm.check_price_change pNone cfgAlarm mBase (some info085) none sn1).2.2
      = .ok () ∧
    (PriceAlarm.check_price_change pNone cfgAlarm mBase (some info12) none sn1).2.2
      = .error .attributeError := by
  have h085 : (PriceAlarm.check_price_change pNone cfgAlarm mBase (some info085) none sn1)
      = (mBase, [Event.fetch 1 true, Event.alarmLog true (-15), Event.logWarning,
                 Event.logError], .ok ()) := by
    norm_num [PriceAlarm.check_price_change, PriceAlarm.trigger_alarm, cfgAlarm,
      cfgBase, mBase, dictGet, pydiv, info085, sn1, Config.alarm_sound_negative]
  have h12 : (PriceAlarm.check_price_change pNone cfgAlarm mBase (some info12) none sn1)
      = (mBase, [Event.fetch 1 true], .error .attributeError) := by
    norm_num [PriceAlarm.check_price_change, cfgAlarm, cfgBase, mBase, dictGet,
      pydiv, info12, sn1, Config.alarm_negative_only]
  rw [h085, h12]
  refine ⟨?_, rfl, rfl⟩
  simp

/-- C5: the fetch-failure half holds (no state mutation, only the failed-fetch
log), but the success half does not always: with notifications supported and
enabled, a threshold-crossing sample (prior τ10, fetched τ10.5, threshold 3%)
dispatches the notification thread and then raises `AttributeError` reading
`config.notification_speak`, aborting `monitor_subnet` before the
`last_prices`/`last_check_time` update; with notifications unsupported the
update does happen. -/
theorem c5_state_update_eval :
    (PriceMonitor.monitor_subnet pMac cfgBase (some info105) 99 sn1 sTen).result
      = .error .attributeError ∧
    (PriceMonitor.monitor_subnet pMac cfgBase (some info105) 99 sn1 sTen).state.last_prices 1
      = some 10 ∧
    (PriceMonitor.monitor_subnet pMac cfgBase (some info105) 99 sn1
        sTen).state.last_check_time 1 = none ∧
    Event.notifSend 1 (21/2) 5 3
      ∈ (PriceMonitor.monitor_subnet pMac cfgBase (some info105) 99 sn1 sTen).events ∧
    (PriceMonitor.monitor_subnet pMac cfgBase none 99 sn1 sTen).state.last_prices 1
      = some 10 ∧
    (PriceMonitor.monitor_subnet pMac cfgBase none 99 sn1 sTen).events
      = [Event.fetch 1 false] ∧
    (PriceMonitor.monitor_subnet pMac cfgBase none 99 sn1 sTen).result = .ok () ∧
    (PriceMonitor.monitor_subnet pNone cfgBase (some info105) 99 sn1 sTen).state.last_prices 1
      = some (21/2) := by
  have hch : ((21:ℚ)/2 - 10) / 10 * 100 = 5 := by norm_num
  have habs : |(5:ℚ)| = 5 := abs_of_pos (by norm_num)
  refine ⟨?_, ?_, ?_, ?_, ?_, ?_, ?_, ?_⟩ <;>
    norm_num [PriceMonitor.monitor_subnet, PriceMonitor.calculate_price_change,
      PriceMonitor.evalChange, PriceMonitor.alertEvents, AlertManager.play_alert,
      NotificationManager.send_notification, NotificationManager.supported,
      Config.notification_speak, PriceAlarm.getMethod, PriceAlarm.methods,
      cfgBase, sTen, initialState, info105, sn1, pMac, pNone, pydiv, hch, habs]

/-- C9: on a negative baseline-alarm trigger (change −15%) with
`alerts_positive_only` and notifications on, the notification is indeed
dropped by the dispatcher's `change <= 0` gate — no notification thread is
started — but no alarm sound is played either: the sound step reads
`config.alarm_sound_negative`, a field `Config` does not define, and the
resulting `AttributeError` is caught and logged instead of playing a sound. -/
theorem c9_negative_alarm_notification_eval :
    (∀ (u : Int) (pr c t : ℚ), Event.notifSend u pr c t
        ∉ (PriceAlarm.trigger_alarm pMac cfgPosOnly (some info085) sn1 (-15) true).1) ∧
    (∀ b : Bool, Event.alarmSound b
        ∉ (PriceAlarm.trigger_alarm pMac cfgPosOnly (some info085) sn1 (-15) true).1) ∧
    Event.logError
      ∈ (PriceAlarm.trigger_alarm pMac cfgPosOnly (some info085) sn1 (-15) true).1 ∧
    (PriceAlarm.trigger_alarm pMac cfgPosOnly (some info085) sn1 (-15) true).2
      = .ok () := by
  have h : PriceAlarm.trigger_alarm pMac cfgPosOnly (some info085) sn1 (-15) true
      = ([Event.fetch 1 true, Event.notifDispatch 1 (17/20) (-15) 10, Event.logDebug,
          Event.logError], .ok ()) := by
    norm_num [PriceAlarm.trigger_alarm, NotificationManager.send_notification,
      NotificationManager.supported, Config.alarm_sound_negative, cfgPosOnly,
      cfgBase, info085, sn1, pMac]
  rw [h]
  refine ⟨fun u pr c t => ?_, fun b => ?_, ?_, rfl⟩ <;> simp

/-- When a prior price exists and is nonzero, a successful-fetch task's trace
is the fetch event followed by the change-dispatch events. -/
theorem PriceMonitor.monitor_subnet_events_of_change (p : Platform) (cfg : Config)
    (s : MonitorState) (subnet : SubnetConfig) (info : SubnetInfo) (now lp : ℚ)
    (hlp : s.last_prices subnet.netuid = some lp) (h0 : lp ≠ 0) :
    (PriceMonitor.monitor_subnet p cfg (some info) now subnet s).events
      = Event.fetch subnet.netuid true ::
        (PriceMonitor.evalChange p cfg subnet info.price
          (some ((info.price - lp) / lp * 100))).1 := by
  have hcalc : PriceMonitor.calculate_price_change
      { s with
        subnet_info_cache := fun u =>
          if u = subnet.netuid then some info else s.subnet_info_cache u,
        display_info := fun u =>
          if u = subnet.netuid then some info else s.display_info u }
      subnet.netuid info.price
      = .ok (some ((info.price - lp) / lp * 100)) := by
    simp [PriceMonitor.calculate_price_change, hlp, pydiv, h0]
  unfold PriceMonitor.monitor_subnet
  dsimp only
  rw [hcalc]
  dsimp only
  split <;> rfl

/-- C6: for an asset whose cycle change exists: if `|change| >= threshold` the
alert is marked (the important log entry carrying the signed change, whose
sign is the alert direction), the sound alerter is dispatched with direction
flag `change > 0`, and, when notifications are globally enabled, the notifier
is dispatched with the price, the change and the subnet threshold; if
`|change| < threshold` no alert is dispatched and the sub-threshold update is
logged exactly when `log_threshold_only` is false. -/
theorem c6_cycle_alert (p : Platform) (cfg : Config) (s : MonitorState)
    (subnet : SubnetConfig) (info : SubnetInfo) (now lp change : ℚ)
    (hlp : s.last_prices subnet.netuid = some lp) (h0 : lp ≠ 0)
    (hch : change = (info.price - lp) / lp * 100) :
    (|change| ≥ subnet.threshold →
      Event.logInfo true info.price (some change)
        ∈ (PriceMonitor.monitor_subnet p cfg (some info) now subnet s).events ∧
      Event.soundDispatch (decide (0 < change))
        ∈ (PriceMonitor.monitor_subnet p cfg (some info) now subnet s).events ∧
      (cfg.notifications_on = true →
        Event.notifDispatch subnet.netuid info.price change subnet.threshold
          ∈ (PriceMonitor.monitor_subnet p cfg (some info) now subnet s).events)) ∧
    (|change| < subnet.threshold →
      (∀ b : Bool,
        Event.soundDispatch b
          ∉ (PriceMonitor.monitor_subnet p cfg (some info) now subnet s).events ∧
        Event.soundThread b
          ∉ (PriceMonitor.monitor_subnet p cfg (some info) now subnet s).events) ∧
      (∀ (u : Int) (pr c t : ℚ),
        Event.notifDispatch u pr c t
          ∉ (PriceMonitor.monitor_subnet p cfg (some info) now subnet s).events ∧
        Event.notifSend u pr c t
          ∉ (PriceMonitor.monitor_subnet p cfg (some info) now subnet s).events) ∧
      (Event.logInfo false info.price (some change)
          ∈ (PriceMonitor.monitor_subnet p cfg (some info) now subnet s).events
        ↔ cfg.log_threshold_only = false)) := by
  subst hch
  rw [PriceMonitor.monitor_subnet_events_of_change p cfg s subnet info now lp hlp h0]
  constructor
  · intro hthr
    have he : (PriceMonitor.evalChange p cfg subnet info.price
        (some ((info.price - lp) / lp * 100))).1
        = (PriceMonitor.alertEvents p cfg subnet info.price
            ((info.price - lp) / lp * 100)).1 := by
      simp only [PriceMonitor.evalChange]
      rw [if_pos hthr]
    rw [he]
    unfold PriceMonitor.alertEvents
    dsimp only
    cases hn : cfg.notifications_on with
    | false => exact ⟨by simp, by simp, fun hcon => by simp at hcon⟩
    | true => exact ⟨by simp, by simp, fun _ => by simp⟩
  · intro hlt
    have hnthr : ¬(|((info.price - lp) / lp * 100)| ≥ subnet.threshold) := not_le.mpr hlt
    have he : (PriceMonitor.evalChange p cfg subnet info.price
        (some ((info.price - lp) / lp * 100))).1
        = if !cfg.log_threshold_only
          then [Event.logInfo false info.price (some ((info.price - lp) / lp * 100))]
          else [] := by
      simp only [PriceMonitor.evalChange]
      rw [if_neg hnthr]
      cases cfg.log_threshold_only <;> simp
    rw [he]
    cases hlog : cfg.log_threshold_only with
    | false =>
      refine ⟨fun b => ⟨by simp, by simp⟩, fun u pr c t => ⟨by simp, by simp⟩, by simp⟩
    | true =>
      refine ⟨fun b => ⟨by simp, by simp⟩, fun u pr c t => ⟨by simp, by simp⟩, by simp⟩

/-- C6 witness: prior τ10, fetched τ10.5, threshold 3%, change +5% — the alert
mark, the positive sound dispatch and the notifier dispatch all appear. -/
theorem c6_cycle_alert_witness :
    Event.logInfo true (21/2) (some 5)
      ∈ (PriceMonitor.monitor_subnet pMac cfgBase (some info105) 99 sn1 sTen).events ∧
    Event.soundDispatch (decide ((0:ℚ) < 5))
      ∈ (PriceMonitor.monitor_subnet pMac cfgBase (some info105) 99 sn1 sTen).events ∧
    (cfgBase.notifications_on = true →
      Event.notifDispatch 1 (21/2) 5 3
        ∈ (PriceMonitor.monitor_subnet pMac cfgBase (some info105) 99 sn1 sTen).events) :=
  (c6_cycle_alert pMac cfgBase sTen sn1 info105 99 10 5
      (by norm_num [sTen, initialState, sn1]) (by norm_num)
      (by norm_num [info105])).1
    (by rw [show |(5:ℚ)| = 5 from abs_of_pos (by norm_num)]; norm_num [sn1])
